import Mathlib

/-!
Verification of the cache-first YouTube content proxy.

Shallow embedding of the core pipeline of the repository:
* `services/rate_limiter.py`   — per-key daily admission with lazy midnight rollover,
* `services/telegram_cache.py` — cache index lookup, ingestion, upload retry,
* `services/youtube_downloader.py` — content-ID extraction and upstream fetch,
* `services/api_service.py`    — the request orchestrator,
* `routes/api.py`              — the HTTP route glue.

The Mongo store is modelled as a list of documents; `find_one` returns the first
matching document, `update_one` rewrites the first matching document.  Timestamps
are abstract `Nat` ticks; calendar dates are their ISO strings, compared exactly
as the source compares them.  Python exceptions are modelled with `Except`
(or `Option` where the source converts failure to `None`).
-/

namespace YtApi

/-! ### Rate limiter (`services/rate_limiter.py`)

`RateLimiter.check_and_update_daily_limit` reads the key document with
`find_one`, decides on the snapshot, and then persists with a separate,
unconditional `update_one`.  The read phase and the write phase are therefore
modelled as two separate steps, so that interleavings of concurrent calls can
be expressed. -/

/-- An `api_keys` document.  Fields read with `.get(...)` in the source are
`Option`-valued (absent key ↦ `none`); `usage_count` only ever appears as the
target of `$inc`, which treats an absent field as `0`. -/
structure ApiKeyDoc where
  key : String
  is_active : Bool
  daily_requests : Option Nat
  daily_limit : Option Nat
  rate_limit : Option Nat
  last_reset_date : Option String
  usage_count : Nat
  last_request_time : Option Nat
  deriving Repr, DecidableEq

abbrev KeyDb := List ApiKeyDoc

/-- The `reset_at` field of the rate-limit response: the source returns the
string `'Invalid API key'` for an unknown key and the next-UTC-midnight
timestamp otherwise; the timestamp arithmetic is abstracted to the date it is
computed from. -/
inductive ResetAt where
  | invalidKey
  | errorMarker
  | nextMidnightAfter (today : String)
  deriving Repr, DecidableEq

/-- The dictionary returned by `check_and_update_daily_limit`. -/
structure RLResult where
  allowed : Bool
  daily_requests : Nat
  daily_limit : Nat
  remaining : Nat
  reset_at : ResetAt
  error : Option String
  deriving Repr, DecidableEq

/-- `db.api_keys.find_one({'key': api_key, 'is_active': True})`. -/
def rlFindKey (db : KeyDb) (apiKey : String) : Option ApiKeyDoc :=
  db.find? (fun d => d.key == apiKey && d.is_active)

/-- The `$set`/`$inc` payload of the admit-path `update_one` (lines 77–88 of
`rate_limiter.py`). -/
def applyAdmitUpdate (newReq lim : Nat) (today : String) (now : Nat)
    (d : ApiKeyDoc) : ApiKeyDoc :=
  { d with
    daily_requests := some newReq
    daily_limit := some lim
    last_reset_date := some today
    last_request_time := some now
    usage_count := d.usage_count + 1 }

/-- `update_one({'key': api_key}, ...)`: rewrite the first document matching
the key.  The returned count models `modified_count`; the update always
carries `$inc: {'usage_count': 1}`, so a matched document is always
modified. -/
def updateOneKey (db : KeyDb) (apiKey : String) (f : ApiKeyDoc → ApiKeyDoc) :
    KeyDb × Nat :=
  match db with
  | [] => ([], 0)
  | d :: rest =>
    if d.key == apiKey then (f d :: rest, 1)
    else
      let r := updateOneKey rest apiKey f
      (d :: r.1, r.2)

/-- Everything `check_and_update_daily_limit` does after its `find_one`:
the decision is computed from the snapshot `kd`, while the write is applied
to the store as it is at write time (the source's `update_one` is not
conditioned on `daily_requests`). -/
def rlFinish (snapshot : Option ApiKeyDoc) (db : KeyDb) (apiKey today : String)
    (now : Nat) : RLResult × KeyDb :=
  match snapshot with
  | none =>
    ({ allowed := false, daily_requests := 0, daily_limit := 0, remaining := 0,
       reset_at := .invalidKey,
       error := some "API key not found or inactive" }, db)
  | some kd =>
    let last_reset_date := kd.last_reset_date.getD today
    let daily_requests0 := kd.daily_requests.getD 0
    let daily_limit := kd.daily_limit.getD (kd.rate_limit.getD 1000)
    let daily_requests := if last_reset_date = today then daily_requests0 else 0
    if daily_requests ≥ daily_limit then
      ({ allowed := false, daily_requests := daily_requests,
         daily_limit := daily_limit, remaining := 0,
         reset_at := .nextMidnightAfter today,
         error := some "Daily limit exceeded" }, db)
    else
      let newReq := daily_requests + 1
      let upd := updateOneKey db apiKey (applyAdmitUpdate newReq daily_limit today now)
      if upd.2 > 0 then
        ({ allowed := true, daily_requests := newReq, daily_limit := daily_limit,
           remaining := daily_limit - newReq,
           reset_at := .nextMidnightAfter today, error := none }, upd.1)
      else
        ({ allowed := false, daily_requests := daily_requests,
           daily_limit := daily_limit,
           remaining := daily_limit - daily_requests,
           reset_at := .nextMidnightAfter today,
           error := some "Failed to update request count" }, upd.1)

/-- `RateLimiter.check_and_update_daily_limit`, run in isolation: the read
phase immediately followed by the decision/write phase. -/
def check_and_update_daily_limit (db : KeyDb) (apiKey today : String)
    (now : Nat) : RLResult × KeyDb :=
  rlFinish (rlFindKey db apiKey) db apiKey today now

/-- Two concurrent calls to `check_and_update_daily_limit` under the
interleaving in which both `find_one` reads happen before either
`update_one` write (an interleaving the source permits, since the read and
the write are separate, unconditional store operations). -/
def admitTwoBothReadFirst (db : KeyDb) (apiKey today : String) (now : Nat) :
    RLResult × RLResult × KeyDb :=
  let s1 := rlFindKey db apiKey
  let s2 := rlFindKey db apiKey
  let fin1 := rlFinish s1 db apiKey today now
  let fin2 := rlFinish s2 fin1.2 apiKey today now
  (fin1.1, fin2.1, fin2.2)

/-- Two sequential (serialized) calls to `check_and_update_daily_limit`. -/
def admitTwoSequential (db : KeyDb) (apiKey today : String) (now : Nat) :
    RLResult × RLResult × KeyDb :=
  let fin1 := check_and_update_daily_limit db apiKey today now
  let fin2 := check_and_update_daily_limit fin1.2 apiKey today now
  (fin1.1, fin2.1, fin2.2)

/-- A concrete key sitting one request below its daily limit (999 of 1000),
already reset today. -/
def c2KeyDoc : ApiKeyDoc :=
  { key := "rk_test_key", is_active := true, daily_requests := some 999,
    daily_limit := some 1000, rate_limit := none,
    last_reset_date := some "2026-10-12", usage_count := 999,
    last_request_time := some 50 }

/-- A concrete active key with `daily_limit = 0` (and hence
`daily_requests = daily_limit = 0`) last reset on the previous calendar
day. -/
def c3ZeroLimitDoc : ApiKeyDoc :=
  { key := "rk_zero", is_active := true, daily_requests := some 0,
    daily_limit := some 0, rate_limit := none,
    last_reset_date := some "2026-10-11", usage_count := 7,
    last_request_time := some 20 }

/-! ### Cache index lookup (`services/telegram_cache.py`, `check_cache`)

`TelegramCache.check_cache` wraps its whole body in `try/except` and returns
`None` on any internal failure.  The body is embedded as `rawCheckCache`,
returning `Except` (a thrown Python exception carries the store state at the
moment of the throw); `check_cache` is the `try/except` wrapper. -/

/-- A `content_cache` document.  Fields the source reads with `doc[...]`
(raising `KeyError` when absent) or `doc.get(...)` are `Option`-valued, with
`none` modelling an absent key; the query fields `youtube_id`, `file_type`,
`status` are kept required. -/
structure CacheDoc where
  _id : Nat
  youtube_id : String
  file_type : String
  status : String
  quality : Option String
  content_hash : Option String
  telegram_file_id : Option String
  title : Option String
  duration : Option String
  file_size : Option Nat
  upload_date : Option String
  access_count : Option Nat
  last_accessed : Option Nat
  last_verified : Option Nat
  created_at : Option Nat
  deriving Repr, DecidableEq

abbrev CacheStore := List CacheDoc

/-- A Python exception crossing the embedded code. -/
inductive PyErr where
  | keyError (field : String)
  | storeError
  | nameError (name : String)
  | valueError (msg : String)
  deriving Repr, DecidableEq

/-- Environment of a cache lookup: availability of the collection, injected
store faults, the liveness probe `_verify_telegram_file` (which catches its
own exceptions and returns a `Bool`, never raising), and the clock. -/
structure CacheEnv where
  collectionAvailable : Bool
  findFault : Bool
  updateFault : Bool
  verifyLive : String → Bool
  now : Nat

/-- Python truthiness of the `quality` argument (`None` and `''` are falsy). -/
def qualityTruthy (q : Option String) : Bool :=
  match q with
  | some s => s != ""
  | none => false

/-- The primary query of `check_cache`: exact `youtube_id`/`file_type`/
`status='active'` match, with `quality` added only when a truthy quality was
requested for video. -/
def primaryMatch (yid ct : String) (q : Option String) (d : CacheDoc) : Bool :=
  d.youtube_id == yid && d.file_type == ct && d.status == "active" &&
    (if qualityTruthy q && ct == "video" then d.quality == q else true)

/-- The fallback query: any active record for `(youtube_id, file_type)`,
quality ignored. -/
def fallbackMatch (yid ct : String) (d : CacheDoc) : Bool :=
  d.youtube_id == yid && d.file_type == ct && d.status == "active"

/-- The two `find_one` calls of `check_cache` lines 103–114: exact match
first, then — only for a video request with truthy quality — any active
record for the same content. -/
def locateDoc (store : CacheStore) (yid ct : String) (q : Option String) :
    Option CacheDoc :=
  match store.find? (primaryMatch yid ct q) with
  | some d => some d
  | none =>
    if ct == "video" && qualityTruthy q then
      store.find? (fallbackMatch yid ct)
    else none

/-- `update_one({'_id': i}, ...)`: rewrite the first document with `_id = i`. -/
def updateOneById (store : CacheStore) (i : Nat) (f : CacheDoc → CacheDoc) :
    CacheStore :=
  match store with
  | [] => []
  | d :: rest =>
    if d._id == i then f d :: rest else d :: updateOneById rest i f

/-- The hit-path update (lines 120–129): `$inc access_count`,
`$set last_accessed, last_verified` (`$inc` on an absent field creates it
holding the increment). -/
def applyAccessUpdate (now : Nat) (d : CacheDoc) : CacheDoc :=
  { d with access_count := some (d.access_count.getD 0 + 1),
           last_accessed := some now, last_verified := some now }

/-- The self-healing update (lines 149–152): `$set status='inactive',
last_verified=now`. -/
def applyInactiveUpdate (now : Nat) (d : CacheDoc) : CacheDoc :=
  { d with status := "inactive", last_verified := some now }

/-- The dictionary `check_cache` returns on a hit (lines 135–146).
`file_size = none` models the `'Unknown'` default. -/
structure CacheHit where
  telegram_file_id : String
  title : String
  duration : String
  file_type : String
  quality : Option String
  file_size : Option Nat
  upload_date : Option String
  access_count : Nat
  cached : Bool
  cache_verified : Bool
  deriving Repr, DecidableEq

/-- The body of `check_cache` (inside its `try`): collection check, exact
then fallback `find_one`, liveness verification of the stored Telegram file,
access-stat update on a verified hit and the inactive transition on a failed
verification.  A raised exception carries the store as mutated so far. -/
def rawCheckCache (env : CacheEnv) (store : CacheStore) (yid ct : String)
    (q : Option String) : Except (PyErr × CacheStore) (Option CacheHit × CacheStore) :=
  if !env.collectionAvailable then .ok (none, store)
  else if env.findFault then .error (.storeError, store)
  else
    match locateDoc store yid ct q with
    | none => .ok (none, store)
    | some doc =>
      match doc.telegram_file_id with
      | none => .error (.keyError "telegram_file_id", store)
      | some tfid =>
        if env.verifyLive tfid then
          if env.updateFault then .error (.storeError, store)
          else
            let store2 := updateOneById store doc._id (applyAccessUpdate env.now)
            match doc.title with
            | none => .error (.keyError "title", store2)
            | some t =>
              match doc.duration with
              | none => .error (.keyError "duration", store2)
              | some du =>
                .ok (some { telegram_file_id := tfid, title := t, duration := du,
                            file_type := doc.file_type, quality := doc.quality,
                            file_size := doc.file_size,
                            upload_date := doc.upload_date,
                            access_count := doc.access_count.getD 0 + 1,
                            cached := true, cache_verified := true }, store2)
        else
          if env.updateFault then .error (.storeError, store)
          else .ok (none, updateOneById store doc._id (applyInactiveUpdate env.now))

/-- `TelegramCache.check_cache`: the body under `try`, with every exception
converted to a miss (`None`) by the `except` clause. -/
def check_cache (env : CacheEnv) (store : CacheStore) (yid ct : String)
    (q : Option String) : Option CacheHit × CacheStore :=
  match rawCheckCache env store yid ct q with
  | .ok r => r
  | .error e => (none, e.2)

/-- The cached 720p copy used to witness the quality fallback. -/
def c4Doc720 : CacheDoc :=
  { _id := 1, youtube_id := "abc123", file_type := "video", status := "active",
    quality := some "720", content_hash := some "hash720",
    telegram_file_id := some "tg_file_720", title := some "Some Title",
    duration := some "3:45", file_size := some 1000,
    upload_date := some "2026-10-01", access_count := some 4,
    last_accessed := some 1, last_verified := some 1, created_at := some 0 }

/-- An all-live, fault-free lookup environment. -/
def c4Env : CacheEnv :=
  { collectionAvailable := true, findFault := false, updateFault := false,
    verifyLive := fun _ => true, now := 10 }

/-- A cached record whose Telegram file is no longer resolvable. -/
def c5DeadDoc : CacheDoc :=
  { _id := 9, youtube_id := "vid9", file_type := "video", status := "active",
    quality := some "360", content_hash := some "hash9",
    telegram_file_id := some "tg_gone", title := some "Dead File",
    duration := some "1:00", file_size := some 10,
    upload_date := some "2026-09-01", access_count := some 2,
    last_accessed := some 5, last_verified := some 5, created_at := some 4 }

/-- An environment whose liveness probe always fails. -/
def c5Env : CacheEnv :=
  { collectionAvailable := true, findFault := false, updateFault := false,
    verifyLive := fun _ => false, now := 77 }

/-! ### Ingestion pipeline (`services/telegram_cache.py`, `download_and_cache`)

The streaming download is abstracted to the sizes of the chunks yielded by
`aiter_bytes`; the Telegram upload to an oracle giving the outcome of each
attempt (`RetryAfter`/`TimedOut`/`NetworkError` are the retryable class,
`BadRequest`/`TelegramError` the non-retryable one); `hashlib.md5` to an
opaque digest function. -/

/-- Outcome of one `send_audio`/`send_video` call. -/
inductive UploadOutcome where
  | success (file_id : String)
  | transient
  | fatal
  deriving Repr, DecidableEq

/-- `self.retry_delays = [1, 2, 5, 10, 30]`. -/
def retry_delays : List Nat := [1, 2, 5, 10, 30]

/-- `self.max_file_size = 50 * 1024 * 1024`. -/
def max_file_size : Nat := 50 * 1024 * 1024

/-- The `for attempt, delay in enumerate(self.retry_delays, 1)` loop of
`_professional_upload_with_retry`: returns the result, the trace of attempt
outcomes, and the list of performed `asyncio.sleep` delays.  A transient
failure sleeps and retries only while `attempt < len(self.retry_delays)`;
success and non-retryable errors return at once. -/
def uploadRetryGo (outcomes : Nat → UploadOutcome) :
    List (Nat × Nat) → Option String × List UploadOutcome × List Nat
  | [] => (none, [], [])
  | (attempt, delay) :: rest =>
    match outcomes attempt with
    | .success f => (some f, [.success f], [])
    | .fatal => (none, [.fatal], [])
    | .transient =>
      if attempt < retry_delays.length then
        let r := uploadRetryGo outcomes rest
        (r.1, .transient :: r.2.1, delay :: r.2.2)
      else (none, [.transient], [])

/-- `TelegramCache._professional_upload_with_retry` (the retry control flow;
filename/caption construction does not affect the retry policy). -/
def professional_upload_with_retry (outcomes : Nat → UploadOutcome) :
    Option String × List UploadOutcome × List Nat :=
  uploadRetryGo outcomes (retry_delays.enumFrom 1)

/-- The ingestion environment: availability flags, the digest, the HTTP
response to the download URL (status and chunk sizes), the upload oracle and
the clock. -/
structure IngestEnv where
  telegram_available : Bool
  cacheAvailable : Bool
  dupFault : Bool
  md5 : String → String
  httpStatus : Nat
  chunks : List Nat
  uploadOutcomes : Nat → UploadOutcome
  now : Nat

/-- The `video_info` dictionary handed to `download_and_cache`; fields read
with `.get` are `Option`-valued. -/
structure VideoInfo where
  video_id : String
  title : String
  duration : String
  source_url : Option String
  thumbnail : Option String
  uploader : Option String
  type : Option String
  quality : Option String
  deriving Repr, DecidableEq

/-- `_generate_content_hash`: md5 of `f"{video_id}_{content_type}_{quality}"`. -/
def generate_content_hash (env : IngestEnv) (video_id content_type quality : String) :
    String :=
  env.md5 (video_id ++ "_" ++ content_type ++ "_" ++ quality)

/-- `_check_duplicate_by_hash`: `find_one({'content_hash': h, 'status':
'active'})`, with an unavailable collection or a store exception swallowed
into `False`. -/
def check_duplicate_by_hash (env : IngestEnv) (store : CacheStore)
    (content_hash : String) : Bool :=
  if !env.cacheAvailable then false
  else if env.dupFault then false
  else (store.find? (fun d =>
    d.content_hash == some content_hash && d.status == "active")).isSome

/-- The chunk loop of `_stream_download_with_progress`: accumulate chunk
sizes and raise (↦ `none`) as soon as the running total passes
`max_file_size`. -/
def streamLoop (maxSize : Nat) : List Nat → Nat → Option Nat
  | [], total => some total
  | c :: cs, total =>
    let total2 := total + c
    if total2 > maxSize then none else streamLoop maxSize cs total2

/-- `_stream_download_with_progress`: `(file_content, total_size)` on
success — the in-memory payload is abstracted to its byte count — and
`(None, 0)` on a non-200 status or a mid-stream size-ceiling abort. -/
def stream_download_with_progress (httpStatus : Nat) (chunks : List Nat) :
    Option Nat × Nat :=
  if httpStatus ≠ 200 then (none, 0)
  else
    match streamLoop max_file_size chunks 0 with
    | some t => (some t, t)
    | none => (none, 0)

/-- A fresh Mongo `_id` for `insert_one`. -/
def freshId (store : CacheStore) : Nat :=
  store.foldr (fun d m => max d._id m) 0 + 1

/-- `_save_professional_cache_entry`: append the `status='active'` cache
entry (lines 412–435); an unavailable collection is swallowed (entry simply
not saved). -/
def save_professional_cache_entry (env : IngestEnv) (store : CacheStore)
    (info : VideoInfo) (telegram_file_id : String)
    (content_type quality : String) (file_size : Nat) (content_hash : String) :
    CacheStore :=
  if !env.cacheAvailable then store
  else
    store ++ [{
      _id := freshId store,
      youtube_id := info.video_id,
      file_type := content_type,
      status := "active",
      quality := if content_type == "video" then some quality else none,
      content_hash := some content_hash,
      telegram_file_id := some telegram_file_id,
      title := some info.title,
      duration := some info.duration,
      file_size := some file_size,
      upload_date := some ("iso:" ++ toString env.now),
      access_count := some 0,
      last_accessed := some env.now,
      last_verified := some env.now,
      created_at := some env.now }]

/-- `TelegramCache.download_and_cache`: duplicate check by content hash,
streaming download, retried upload, cache-entry save.  Returns the Telegram
file id (or `None`), the resulting store, and the trace of upload attempts
actually performed. -/
def download_and_cache (env : IngestEnv) (store : CacheStore)
    (info : VideoInfo) : Option String × CacheStore × List UploadOutcome :=
  if !env.telegram_available then (none, store, [])
  else
    let content_type := info.type.getD "video"
    let quality := info.quality.getD "360"
    let content_hash := generate_content_hash env info.video_id content_type quality
    if check_duplicate_by_hash env store content_hash then (none, store, [])
    else
      let dl := stream_download_with_progress env.httpStatus env.chunks
      match dl.1 with
      | none => (none, store, [])
      | some total =>
        let up := professional_upload_with_retry env.uploadOutcomes
        match up.1 with
        | some tfid =>
          (some tfid,
           save_professional_cache_entry env store info tfid content_type
             quality total content_hash,
           up.2.1)
        | none => (none, store, up.2.1)

/-- An ingestion environment delivering a 60MB payload in two 30MB chunks. -/
def c6Env : IngestEnv :=
  { telegram_available := true, cacheAvailable := true, dupFault := false,
    md5 := fun s => "md5:" ++ s, httpStatus := 200,
    chunks := [30 * 1024 * 1024, 30 * 1024 * 1024],
    uploadOutcomes := fun _ => .success "never_used", now := 5 }

/-- The oversized content being ingested. -/
def c6Info : VideoInfo :=
  { video_id := "bigvid", title := "Big", duration := "10:00",
    source_url := none, thumbnail := none, uploader := none,
    type := some "video", quality := some "720" }

/-- The first (already persisted) copy of the content, carrying the content
hash the second ingestion will recompute. -/
def c7ExistingDoc : CacheDoc :=
  { _id := 3, youtube_id := "vid123", file_type := "video", status := "active",
    quality := some "360", content_hash := some "md5:vid123_video_360",
    telegram_file_id := some "tg_first", title := some "First Copy",
    duration := some "2:00", file_size := some 500, upload_date := some "iso:1",
    access_count := some 1, last_accessed := some 1, last_verified := some 1,
    created_at := some 1 }

/-- Environment of the second ingestion of the same logical content. -/
def c7Env : IngestEnv :=
  { telegram_available := true, cacheAvailable := true, dupFault := false,
    md5 := fun s => "md5:" ++ s, httpStatus := 200, chunks := [1000],
    uploadOutcomes := fun _ => .success "tg_second", now := 9 }

/-- The `video_info` of the second ingestion (same id, type and quality as
the existing record, hence the same content hash). -/
def c7Info : VideoInfo :=
  { video_id := "vid123", title := "First Copy", duration := "2:00",
    source_url := none, thumbnail := none, uploader := none,
    type := some "video", quality := some "360" }

/-! ### Content-ID extraction (`services/youtube_downloader.py`,
`extract_video_id`)

`re.search` with the two patterns
`(?:youtube\.com/watch\?v=|youtu\.be/|youtube\.com/embed/)([^&?\n]+)` and
`youtube\.com/v/([^&?\n]+)`: leftmost match wins, alternation branches are
tried in order at each position, the capture is a nonempty greedy run of
characters outside `&?\n`.  `none` models the raised
`ValueError('Invalid YouTube URL')`. -/

/-- A character matched by `[^&?\n]`. -/
def isIdChar (c : Char) : Bool :=
  c != '&' && c != '?' && c != '\n'

/-- Match one alternation branch — a literal followed by the capture
`([^&?\n]+)` — at the current position. -/
def matchBranchAt (lit : List Char) (s : List Char) : Option (List Char) :=
  if lit.isPrefixOf s then
    let run := (s.drop lit.length).takeWhile isIdChar
    if run.isEmpty then none else some run
  else none

/-- `re.search`: scan start positions left to right, trying the alternation
branches in order at each. -/
def reSearch (branches : List (List Char)) : List Char → Option (List Char)
  | [] => none
  | c :: rest =>
    match branches.findSome? (fun b => matchBranchAt b (c :: rest)) with
    | some r => some r
    | none => reSearch branches rest

/-- `YouTubeDownloader.extract_video_id`. -/
def extract_video_id (url : String) : Option String :=
  let s := url.toList
  match reSearch
      ["youtube.com/watch?v=".toList, "youtu.be/".toList,
       "youtube.com/embed/".toList] s with
  | some r => some (String.mk r)
  | none =>
    match reSearch ["youtube.com/v/".toList] s with
    | some r => some (String.mk r)
    | none => none

/-! ### Request orchestrator (`services/api_service.py`,
`process_youtube_request`) and the `/api/v1/video` route (`routes/api.py`)

`api_service.py` imports only the getter `get_content_cache_collection` from
`database.simple_mongo` and binds its result to the local `collection`; no
binding named `content_cache_collection` exists at module, class or function
scope, yet line 177 (and the cache-hit update at line 193) reads that bare
name.  `content_cache_collection_binding` models the (absent) binding;
reading an unbound Python name raises `NameError`, which the function's
outer `except` turns into a `status: False` response. -/

/-- The module does not bind `content_cache_collection`. -/
def content_cache_collection_binding : Option Unit := none

/-- A successful `YouTubeDownloader.download_content` payload (the
`status: True` dictionary of lines 199–208). -/
structure DlSuccess where
  title : String
  duration : String
  thumbnail : String
  download_url : String
  video_id : String
  quality : String
  type : String
  deriving Repr, DecidableEq

/-- Environment of one orchestrated request: database availability, the
cache collection contents, a fault flag for the backup-cache helper (whose
`except` swallows store errors into `None`), the upstream downloader
(`.error msg` models its `status: False` dictionary), the configured
Telegram channel link and the clock. -/
structure OrchEnv where
  dbAvailable : Bool
  cacheStore : CacheStore
  backupFault : Bool
  download_content : String → String → String → Except String DlSuccess
  telegram_channel_link : String
  now : Nat

/-- The JSON body returned by the orchestrator / route (union of the fields
of all response shapes; the wall-clock `response_time` string is omitted). -/
structure ApiResponse where
  status : Bool
  cached : Option Bool
  source : Option String
  video_id : Option String
  title : Option String
  duration : Option String
  telegram_file_id : Option String
  download_url : Option String
  file_type : Option String
  quality : Option String
  file_size : Option Nat
  upload_date : Option String
  access_count : Option Nat
  telegram_url : Option String
  message : Option String
  error : Option String
  deriving Repr, DecidableEq

/-- The all-absent response body. -/
def emptyResponse : ApiResponse :=
  { status := false, cached := none, source := none, video_id := none,
    title := none, duration := none, telegram_file_id := none,
    download_url := none, file_type := none, quality := none,
    file_size := none, upload_date := none, access_count := none,
    telegram_url := none, message := none, error := none }

/-- `str(e)` for the exceptions crossing the orchestrator (Python quotes
around names are elided). -/
def pyErrMsg : PyErr → String
  | .valueError m => m
  | .nameError n => "NameError: name " ++ n ++ " is not defined"
  | .keyError f => "KeyError: " ++ f
  | .storeError => "StoreError"

/-- The dictionary `_check_existing_telegram_cache` returns on a backup-cache
hit. -/
structure BackupHit where
  title : String
  duration : String
  telegram_file_id : String
  quality : Option String
  file_size : Option Nat
  upload_date : Option String
  deriving Repr, DecidableEq

/-- `APIService._check_existing_telegram_cache`: active record for
`(youtube_id, file_type)` with a `telegram_file_id`; any internal exception
(unavailable collection, store fault, malformed record) is swallowed into
`None` by its `except`. -/
def checkExistingTelegramCache (env : OrchEnv) (video_id content_type : String) :
    Option BackupHit :=
  if !env.dbAvailable then none
  else if env.backupFault then none
  else
    match env.cacheStore.find? (fun d =>
      d.youtube_id == video_id && d.file_type == content_type &&
      d.telegram_file_id.isSome && d.status == "active") with
    | none => none
    | some d =>
      match d.title, d.duration, d.telegram_file_id with
      | some t, some du, some tf =>
        some { title := t, duration := du, telegram_file_id := tf,
               quality := d.quality, file_size := d.file_size,
               upload_date := d.upload_date }
      | _, _, _ => none

/-- `APIService._get_best_quality`: `'1080'` for video, `'320'` otherwise. -/
def get_best_quality (content_type : String) : String :=
  if content_type == "video" then "1080" else "320"

/-- The cache-hit access update of lines 193–199 (`$inc access_count`,
`$set last_accessed`). -/
def applyOrchAccessUpdate (now : Nat) (d : CacheDoc) : CacheDoc :=
  { d with access_count := some (d.access_count.getD 0 + 1),
           last_accessed := some now }

/-- The body of `process_youtube_request` (inside its `try`).  Returns the
response, the resulting cache store, and the list of background ingestion
tasks spawned (each carrying the fresh download result); a raised exception
carries the store as mutated so far.

The branch below the `content_cache_collection_binding` match is reachable
only if the module had bound that name; it is translated against the cache
store so the whole control flow of lines 141–314 is present. -/
def processBody (env : OrchEnv) (youtube_url content_type quality : String) :
    Except (PyErr × CacheStore) (ApiResponse × CacheStore × List DlSuccess) :=
  -- lines 147–166 fetch/initialize the collection into the local
  -- `collection`, with logging only; no response depends on it
  match extract_video_id youtube_url with
  | none => .error (.valueError "Invalid YouTube URL", env.cacheStore)
  | some video_id =>
    match content_cache_collection_binding with
    | none => .error (.nameError "content_cache_collection", env.cacheStore)
    | some _ =>
      if !env.dbAvailable then .error (.storeError, env.cacheStore)
      else
        -- STEP 1 (lines 177–224): direct find on the collection
        match env.cacheStore.find? (fun d =>
          d.youtube_id == video_id && d.file_type == content_type &&
          d.status == "active") with
        | some cached =>
          match cached.title with
          | none => .error (.keyError "title", env.cacheStore)
          | some t =>
            let store2 := updateOneById env.cacheStore cached._id
              (applyOrchAccessUpdate env.now)
            match cached.duration, cached.telegram_file_id with
            | some du, some tf =>
              .ok ({ emptyResponse with
                      status := true, cached := some true,
                      source := some "production_cache",
                      video_id := some video_id, title := some t,
                      duration := some du, telegram_file_id := some tf,
                      file_type := some content_type,
                      quality := some (cached.quality.getD quality),
                      file_size := cached.file_size,
                      upload_date := cached.upload_date,
                      access_count := some (cached.access_count.getD 0 + 1),
                      message := some "Ultra-fast response from production cache!" },
                   store2, [])
            | none, _ => .error (.keyError "duration", store2)
            | _, none => .error (.keyError "telegram_file_id", store2)
        | none =>
          -- STEP 2 (lines 226–255): MongoDB backup cache
          match checkExistingTelegramCache env video_id content_type with
          | some ex =>
            .ok ({ emptyResponse with
                    status := true, cached := some true,
                    source := some "mongodb_backup_cache",
                    video_id := some video_id, title := some ex.title,
                    duration := some ex.duration,
                    telegram_file_id := some ex.telegram_file_id,
                    file_type := some content_type, quality := ex.quality,
                    file_size := ex.file_size, upload_date := ex.upload_date,
                    telegram_url := some env.telegram_channel_link },
                 env.cacheStore, [])
          | none =>
            -- STEP 3 (lines 257–314): fresh download, background ingestion
            let best_quality := get_best_quality content_type
            match env.download_content youtube_url best_quality content_type with
            | .error msg =>
              .ok ({ emptyResponse with status := false, error := some msg },
                   env.cacheStore, [])
            | .ok dl =>
              .ok ({ emptyResponse with
                      status := true, cached := some false,
                      source := some "fresh_download",
                      video_id := some video_id, title := some dl.title,
                      duration := some dl.duration,
                      download_url := some dl.download_url,
                      file_type := some content_type,
                      quality := if content_type == "video" then some quality
                                 else none,
                      message := some
                        "Fresh content downloaded! Will be cached in Telegram for next time." },
                   env.cacheStore, [dl])

/-- `APIService.process_youtube_request`: the body with its outer `except`,
which converts any exception into a `status: False` body carrying `str(e)`. -/
def process_youtube_request (env : OrchEnv)
    (youtube_url content_type quality : String) :
    ApiResponse × CacheStore × List DlSuccess :=
  match processBody env youtube_url content_type quality with
  | .ok r => r
  | .error e =>
    ({ emptyResponse with status := false, error := some (pyErrMsg e.1) },
     e.2, [])

/-- The `/api/v1/video` route handler (`routes/api.py`, `get_video`), after
admission: a missing `url` parameter is answered with HTTP 400, any other
outcome — including the `status: False` bodies the orchestrator produces for
invalid URLs and upstream failures — is passed to `jsonify(result)` and
served with HTTP 200. -/
def run_get_video (env : OrchEnv) (urlParam : Option String) (quality : String) :
    ApiResponse × Nat :=
  match urlParam with
  | none =>
    ({ emptyResponse with
        status := false,
        error := some "Missing URL parameter",
        message := some "Please provide a YouTube URL" }, 400)
  | some url =>
    ((process_youtube_request env url "video" quality).1, 200)

/-- A fresh-download result the upstream resolver would return for the
never-cached content. -/
def c1Download : DlSuccess :=
  { title := "Never Gonna Give You Up", duration := "3:32",
    thumbnail := "thumb.jpg", download_url := "https://cdn.example/dQw.mp4",
    video_id := "dQw4w9WgXcQ", quality := "1080", type := "video" }

/-- A first-request environment: empty cache, healthy database, upstream
fetch succeeding. -/
def c1Env : OrchEnv :=
  { dbAvailable := true, cacheStore := [], backupFault := false,
    download_content := fun _ _ _ => .ok c1Download,
    telegram_channel_link := "https://t.me/c/chan/", now := 1 }

/-- Orchestrator environment for the bad-URL route scenario. -/
def c9Env : OrchEnv :=
  { dbAvailable := true, cacheStore := [], backupFault := false,
    download_content := fun _ _ _ =>
      .error "Failed to get download URL after 5 attempts",
    telegram_channel_link := "https://t.me/c/chan/", now := 2 }

/-! ### Theorems -/

/-- C2: with the two `find_one` reads interleaved before the writes, BOTH
concurrent admit calls on a key at `dailyLimit - 1` return `allowed = true`
(the claim demands exactly one), while the persisted `daily_requests` ends at
the limit.  Sequentially the same pair yields one admission and one
rejection, confirming the race is the only source of the violation. -/
theorem c2_race_two_admissions :
    (admitTwoBothReadFirst [c2KeyDoc] "rk_test_key" "2026-10-12" 100).1.allowed = true ∧
    (admitTwoBothReadFirst [c2KeyDoc] "rk_test_key" "2026-10-12" 100).2.1.allowed = true ∧
    (admitTwoBothReadFirst [c2KeyDoc] "rk_test_key" "2026-10-12" 100).2.2.map
      (fun d => d.daily_requests) = [some 1000] ∧
    (admitTwoSequential [c2KeyDoc] "rk_test_key" "2026-10-12" 100).1.allowed = true ∧
    (admitTwoSequential [c2KeyDoc] "rk_test_key" "2026-10-12" 100).2.1.allowed = false := by
  decide

/-- C3 counterexample: an active key whose `last_reset_date` is the previous
day and whose `daily_requests` equals its `daily_limit` (both 0) is REFUSED
(`allowed = false`) by a single admit call — the claim, quantified over every
such key, demands `allowed = true`. -/
theorem c3_counterexample_zero_limit :
    (check_and_update_daily_limit [c3ZeroLimitDoc] "rk_zero" "2026-10-12" 60).1.allowed
      = false ∧
    c3ZeroLimitDoc.is_active = true ∧
    c3ZeroLimitDoc.last_reset_date = some "2026-10-11" ∧
    c3ZeroLimitDoc.daily_requests = c3ZeroLimitDoc.daily_limit := by
  decide

/-- C3 (amended: `daily_limit ≥ 1`): an admit call on an active key whose
`last_reset_date` is a prior day (any date other than today) and whose
`daily_requests` equals its positive `daily_limit` resets the counter first,
so it returns `allowed = true` with `daily_requests = 1`, and persists
`daily_requests = 1`. -/
theorem c3_midnight_rollover (d : ApiKeyDoc) (rest : KeyDb)
    (today yesterday : String) (now : Nat) (L : Nat)
    (hact : d.is_active = true)
    (hlim : d.daily_limit = some L) (hpos : 1 ≤ L)
    (hreq : d.daily_requests = some L)
    (hdate : d.last_reset_date = some yesterday)
    (hne : yesterday ≠ today) :
    (check_and_update_daily_limit (d :: rest) d.key today now).1.allowed = true ∧
    (check_and_update_daily_limit (d :: rest) d.key today now).1.daily_requests = 1 ∧
    (check_and_update_daily_limit (d :: rest) d.key today now).2 =
      applyAdmitUpdate 1 L today now d :: rest ∧
    (applyAdmitUpdate 1 L today now d).daily_requests = some 1 := by
  have hfind : rlFindKey (d :: rest) d.key = some d := by
    simp [rlFindKey, List.find?, hact]
  have hupd : updateOneKey (d :: rest) d.key (applyAdmitUpdate 1 L today now) =
      (applyAdmitUpdate 1 L today now d :: rest, 1) := by
    simp [updateOneKey]
  simp only [check_and_update_daily_limit, hfind, rlFinish, hlim, hdate, hreq,
    Option.getD_some]
  rw [if_neg hne]
  have hnotge : ¬ (0 ≥ L) := by omega
  rw [if_neg hnotge]
  simp only [hupd]
  simp [applyAdmitUpdate]

/-- Witness for `c3_midnight_rollover` at a concrete key document. -/
theorem c3_midnight_rollover_witness :
    c2KeyDoc.is_active = true ∧
    (check_and_update_daily_limit
      [{ c2KeyDoc with daily_requests := some 1000,
                       last_reset_date := some "2026-10-11" }]
      "rk_test_key" "2026-10-12" 100).1.allowed = true := by
  refine ⟨rfl, ?_⟩
  have h := c3_midnight_rollover
    { c2KeyDoc with daily_requests := some 1000,
                    last_reset_date := some "2026-10-11" }
    [] "2026-10-12" "2026-10-11" 100 1000
    rfl rfl (by omega) rfl rfl (by decide)
  exact h.1

/-- C10: `check_cache` is total at its interface — whenever its body raises
(unavailable collection is already a non-raising miss; store faults on
`find_one`/`update_one` and malformed documents raise), the caller still
receives a plain miss (`None`), never an exception. -/
theorem check_cache_total_on_faults (env : CacheEnv) (store : CacheStore)
    (yid ct : String) (q : Option String)
    (h : ∃ e, rawCheckCache env store yid ct q = .error e) :
    ∃ s', check_cache env store yid ct q = (none, s') := by
  obtain ⟨e, he⟩ := h
  exact ⟨e.2, by simp [check_cache, he]⟩

/-- Witness for `check_cache_total_on_faults`: a faulting `find_one` (store
error) surfaces as a miss on a concrete store. -/
theorem check_cache_total_on_faults_witness :
    ∃ s', check_cache
      { collectionAvailable := true, findFault := true, updateFault := false,
        verifyLive := fun _ => true, now := 3 }
      [] "dQw4w9WgXcQ" "video" (some "360") = (none, s') :=
  check_cache_total_on_faults _ _ _ _ _ ⟨(.storeError, []), rfl⟩

/-- In the store produced by `updateOneById`, any document carrying the
updated `_id` is the image under the update of a document of the original
store with that `_id` (assuming Mongo `_id`s are unique and the update
preserves `_id`). -/
theorem updateOneById_mem_eq_id (store : CacheStore) (i : Nat)
    (f : CacheDoc → CacheDoc)
    (hnd : (store.map (fun d => d._id)).Nodup) :
    ∀ d ∈ updateOneById store i f, d._id = i →
      ∃ d₀, d₀ ∈ store ∧ d₀._id = i ∧ d = f d₀ := by
  induction store with
  | nil => simp [updateOneById]
  | cons hd tl ih =>
    simp only [List.map_cons, List.nodup_cons] at hnd
    intro d hmem hid
    by_cases hh : hd._id = i
    · rw [updateOneById, if_pos (by simp [hh])] at hmem
      rcases List.mem_cons.mp hmem with h | h
      · exact ⟨hd, List.mem_cons_self _ _, hh, h⟩
      · refine absurd ?_ hnd.1
        have : d._id ∈ List.map (fun d => d._id) tl :=
          List.mem_map_of_mem (fun d => d._id) h
        rwa [hid, ← hh] at this
    · rw [updateOneById, if_neg (by simp [hh])] at hmem
      rcases List.mem_cons.mp hmem with h | h
      · exact absurd (h ▸ hid) hh
      · obtain ⟨d₀, hd₀, hi₀, hval⟩ := ih hnd.2 d h hid
        exact ⟨d₀, List.mem_cons_of_mem _ hd₀, hi₀, hval⟩

/-- C4: a video lookup with a truthy quality that has no exact-quality active
match but whose fallback query finds an active record `r` of another quality
(whose stored Telegram file is still live and whose payload fields are
present) returns the view of `r` — a hit, not a miss. -/
theorem c4_quality_fallback (env : CacheEnv) (store : CacheStore)
    (yid q : String) (r : CacheDoc) (tf t du : String)
    (hcoll : env.collectionAvailable = true)
    (hff : env.findFault = false)
    (huf : env.updateFault = false)
    (hq : q ≠ "")
    (hnoexact : store.find? (primaryMatch yid "video" (some q)) = none)
    (hfb : store.find? (fallbackMatch yid "video") = some r)
    (htf : r.telegram_file_id = some tf)
    (hlive : env.verifyLive tf = true)
    (ht : r.title = some t)
    (hdu : r.duration = some du) :
    (check_cache env store yid "video" (some q)).1 = some
      { telegram_file_id := tf, title := t, duration := du,
        file_type := r.file_type, quality := r.quality,
        file_size := r.file_size, upload_date := r.upload_date,
        access_count := r.access_count.getD 0 + 1,
        cached := true, cache_verified := true } := by
  have hqt : qualityTruthy (some q) = true := by
    simp [qualityTruthy, bne_iff_ne, hq]
  have hloc : locateDoc store yid "video" (some q) = some r := by
    simp [locateDoc, hnoexact, hqt, hfb]
  simp [check_cache, rawCheckCache, hcoll, hff, hloc, htf, hlive, huf, ht, hdu]

/-- Witness for `c4_quality_fallback`: a 480p request served by the 720p
record. -/
theorem c4_quality_fallback_witness :
    (check_cache c4Env [c4Doc720] "abc123" "video" (some "480")).1 = some
      { telegram_file_id := "tg_file_720", title := "Some Title",
        duration := "3:45", file_type := "video", quality := some "720",
        file_size := some 1000, upload_date := some "2026-10-01",
        access_count := 5, cached := true, cache_verified := true } := by
  exact c4_quality_fallback c4Env [c4Doc720] "abc123" "480" c4Doc720
    "tg_file_720" "Some Title" "3:45" rfl rfl rfl (by decide) (by decide)
    (by decide) rfl rfl rfl rfl

/-- C5: when the lookup locates an active record whose stored Telegram file
fails the liveness verification, `check_cache` marks exactly that record
`inactive` (setting `last_verified`) and returns a miss. -/
theorem c5_self_healing (env : CacheEnv) (store : CacheStore)
    (yid ct : String) (q : Option String) (r : CacheDoc) (tf : String)
    (hcoll : env.collectionAvailable = true)
    (hff : env.findFault = false)
    (huf : env.updateFault = false)
    (hloc : locateDoc store yid ct q = some r)
    (htf : r.telegram_file_id = some tf)
    (hdead : env.verifyLive tf = false)
    (hnd : (store.map (fun d => d._id)).Nodup) :
    check_cache env store yid ct q =
      (none, updateOneById store r._id (applyInactiveUpdate env.now)) ∧
    ∀ d ∈ (check_cache env store yid ct q).2, d._id = r._id →
      d.status = "inactive" ∧ d.last_verified = some env.now := by
  have heq : check_cache env store yid ct q =
      (none, updateOneById store r._id (applyInactiveUpdate env.now)) := by
    simp [check_cache, rawCheckCache, hcoll, hff, hloc, htf, hdead, huf]
  refine ⟨heq, ?_⟩
  intro d hmem hid
  rw [heq] at hmem
  obtain ⟨d₀, _, _, hval⟩ :=
    updateOneById_mem_eq_id store r._id (applyInactiveUpdate env.now)
      hnd d hmem hid
  exact ⟨by rw [hval]; rfl, by rw [hval]; rfl⟩

/-- Witness for `c5_self_healing`: the dead record is deactivated and the
caller gets a miss. -/
theorem c5_self_healing_witness :
    check_cache c5Env [c5DeadDoc] "vid9" "video" (some "360") =
      (none, [{ c5DeadDoc with status := "inactive", last_verified := some 77 }]) := by
  exact (c5_self_healing c5Env [c5DeadDoc] "vid9" "video" (some "360")
    c5DeadDoc "tg_gone" rfl rfl rfl (by decide) rfl rfl (by decide)).1

/-- A running total that is still within bounds but whose remaining chunks
push past the ceiling makes the chunk loop abort with a failure. -/
theorem streamLoop_none_of_sum_gt (maxSize : Nat) :
    ∀ (chunks : List Nat) (acc : Nat), acc ≤ maxSize →
      maxSize < acc + chunks.sum → streamLoop maxSize chunks acc = none := by
  intro chunks
  induction chunks with
  | nil => intro acc hle hlt; simp at hlt; omega
  | cons c cs ih =>
    intro acc hle hlt
    rw [streamLoop]
    by_cases hc : acc + c > maxSize
    · simp [hc]
    · rw [if_neg hc]
      exact ih (acc + c) (by omega) (by simp at hlt ⊢; omega)

/-- C6: a payload whose total size passes the 50MB ceiling makes the
streaming download abort with a failure (`None`, never a truncated payload),
after which `download_and_cache` performs no upload attempt, inserts no cache
record, and returns failure. -/
theorem c6_size_ceiling (env : IngestEnv) (store : CacheStore) (info : VideoInfo)
    (htel : env.telegram_available = true)
    (hst : env.httpStatus = 200)
    (hdup : check_duplicate_by_hash env store
      (generate_content_hash env info.video_id (info.type.getD "video")
        (info.quality.getD "360")) = false)
    (hbig : max_file_size < env.chunks.sum) :
    download_and_cache env store info = (none, store, []) ∧
    (stream_download_with_progress env.httpStatus env.chunks).1 = none := by
  have hloop : streamLoop max_file_size env.chunks 0 = none :=
    streamLoop_none_of_sum_gt max_file_size env.chunks 0 (Nat.zero_le _)
      (by simpa using hbig)
  have hdl : stream_download_with_progress env.httpStatus env.chunks = (none, 0) := by
    simp [stream_download_with_progress, hst, hloop]
  refine ⟨?_, by simp [hdl]⟩
  simp [download_and_cache, htel, hdup, hdl]

/-- Witness for `c6_size_ceiling` on the 60MB payload. -/
theorem c6_size_ceiling_witness :
    download_and_cache c6Env [] c6Info = (none, [], []) := by
  exact (c6_size_ceiling c6Env [] c6Info rfl rfl (by decide) (by decide)).1

/-- C7 counterexample: the second insert of content whose hash matches an
existing active record returns `None` — NOT the existing (first) record,
whose stored reference is `tg_first` — while leaving the store unchanged. -/
theorem c7_counterexample_returns_none_not_first :
    (download_and_cache c7Env [c7ExistingDoc] c7Info).1 = none ∧
    (download_and_cache c7Env [c7ExistingDoc] c7Info).1 ≠
      c7ExistingDoc.telegram_file_id ∧
    c7ExistingDoc.telegram_file_id = some "tg_first" ∧
    (download_and_cache c7Env [c7ExistingDoc] c7Info).2.1 = [c7ExistingDoc] := by
  decide

/-- C7 (amended): when the recomputed content hash already has an active
record, the second ingestion is skipped entirely — no upload attempt, the
store unchanged (so exactly one active record for that hash remains exactly
one), and the call returns failure (`None`) rather than erroring or
duplicating. -/
theorem c7_dedup_idempotent (env : IngestEnv) (store : CacheStore)
    (info : VideoInfo) (h : String)
    (hh : h = generate_content_hash env info.video_id (info.type.getD "video")
      (info.quality.getD "360"))
    (hdup : check_duplicate_by_hash env store h = true) :
    download_and_cache env store info = (none, store, []) ∧
    (store.countP (fun d => d.content_hash == some h && d.status == "active") = 1 →
      (download_and_cache env store info).2.1.countP
        (fun d => d.content_hash == some h && d.status == "active") = 1) := by
  rw [hh] at hdup
  have heq : download_and_cache env store info = (none, store, []) := by
    by_cases htel : env.telegram_available
    · simp [download_and_cache, htel, hdup]
    · have hfalse : env.telegram_available = false := by
        simpa using htel
      simp [download_and_cache, hfalse]
  exact ⟨heq, fun hc => by rw [heq]; exact hc⟩

/-- Witness for `c7_dedup_idempotent` on the concrete duplicate ingestion. -/
theorem c7_dedup_idempotent_witness :
    download_and_cache c7Env [c7ExistingDoc] c7Info = (none, [c7ExistingDoc], []) := by
  exact (c7_dedup_idempotent c7Env [c7ExistingDoc] c7Info
    "md5:vid123_video_360" (by decide) (by decide)).1

/-- C8: the upload retry loop performs at most 5 attempts; every non-final
attempt in the trace is a transient (retryable) failure — so a non-retryable
error or a success is never retried; the sleeps performed follow exactly the
fixed schedule `[1, 2, 5, 10, 30]` (its `k`-th delay after the `k`-th
transient failure); and a non-retryable error terminates the loop at once
with a failed upload. -/
theorem c8_retry_policy (outcomes : Nat → UploadOutcome) :
    (professional_upload_with_retry outcomes).2.1.length ≤ 5 ∧
    (professional_upload_with_retry outcomes).2.2 =
      retry_delays.take ((professional_upload_with_retry outcomes).2.1.length - 1) ∧
    (professional_upload_with_retry outcomes).2.1.dropLast.all
      (fun o => o == .transient) = true ∧
    (UploadOutcome.fatal ∈ (professional_upload_with_retry outcomes).2.1 →
      (professional_upload_with_retry outcomes).1 = none ∧
      (professional_upload_with_retry outcomes).2.1.getLast? = some .fatal) := by
  have hen : professional_upload_with_retry outcomes =
      uploadRetryGo outcomes [(1, 1), (2, 2), (3, 5), (4, 10), (5, 30)] := rfl
  rw [hen]
  rcases h1 : outcomes 1 with f1 | _ | _ <;>
    rcases h2 : outcomes 2 with f2 | _ | _ <;>
      rcases h3 : outcomes 3 with f3 | _ | _ <;>
        rcases h4 : outcomes 4 with f4 | _ | _ <;>
          rcases h5 : outcomes 5 with f5 | _ | _ <;>
            simp_all [uploadRetryGo, retry_delays]

/-- Witness for `c8_retry_policy`: an upload that fails non-retryably on its
first attempt ends immediately with a failed upload. -/
theorem c8_retry_policy_witness :
    (professional_upload_with_retry (fun _ => .fatal)).1 = none ∧
    (professional_upload_with_retry (fun _ => .fatal)).2.1.getLast? =
      some .fatal := by
  exact (c8_retry_policy (fun _ => .fatal)).2.2.2 (by decide)

/-- C1: on a cache-miss request whose upstream fetch would succeed, the
orchestrator still returns `status: False` — the read of the unbound name
`content_cache_collection` raises `NameError` before any cache check or
fetch, the outer `except` converts it into an error body, and no background
ingestion task is spawned (so no active record is ever inserted).  The
claimed `status: True, cached: False, source: "fresh"` response is never
produced. -/
theorem c1_name_error_kills_fresh_path :
    extract_video_id "https://youtube.com/watch?v=dQw4w9WgXcQ" =
      some "dQw4w9WgXcQ" ∧
    c1Env.cacheStore = [] ∧
    (c1Env.download_content "https://youtube.com/watch?v=dQw4w9WgXcQ" "1080"
      "video").toOption = some c1Download ∧
    process_youtube_request c1Env "https://youtube.com/watch?v=dQw4w9WgXcQ"
      "video" "360" =
      ({ emptyResponse with
          status := false,
          error := some "NameError: name content_cache_collection is not defined" },
       [], []) := by
  decide

/-- C9 counterexample: a source URL matching no accepted shape makes the
`/video` route answer with HTTP 200 (carrying a `status: False` body), not
with the claimed HTTP 400. -/
theorem c9_counterexample_http_200_not_400 :
    extract_video_id "https://example.com/notavideo" = none ∧
    (run_get_video c9Env (some "https://example.com/notavideo") "360").2 = 200 ∧
    (run_get_video c9Env (some "https://example.com/notavideo") "360").2 ≠ 400 ∧
    (run_get_video c9Env (some "https://example.com/notavideo") "360").1.status
      = false ∧
    (run_get_video c9Env (some "https://example.com/notavideo") "360").1.error
      = some "Invalid YouTube URL" := by
  decide

/-- C9 (amended): a source URL matching no accepted shape fails content-ID
extraction with the `Invalid YouTube URL` error, and the route serves the
resulting `status: False` body with HTTP 200 — distinguishable from
upstream-unavailability failures only by the error message (HTTP 400 is
reserved for a missing `url` parameter). -/
theorem c9_invalid_url_served_with_200 (env : OrchEnv) (q url : String)
    (hbad : extract_video_id url = none) :
    run_get_video env (some url) q =
      ({ emptyResponse with
          status := false, error := some "Invalid YouTube URL" }, 200) := by
  simp [run_get_video, process_youtube_request, processBody, hbad, pyErrMsg]

/-- Witness for `c9_invalid_url_served_with_200` at a concrete bad URL. -/
theorem c9_invalid_url_served_with_200_witness :
    run_get_video c9Env (some "https://example.com/notavideo") "360" =
      ({ emptyResponse with
          status := false, error := some "Invalid YouTube URL" }, 200) := by
  exact c9_invalid_url_served_with_200 c9Env "360" "https://example.com/notavideo"
    (by decide)

end YtApi
